import Mathlib

/-!
A shallow embedding of three source files of the `perspective` repository:

* `packages/perspective-viewer-datagrid/src/js/style_handlers/table_cell/index.js`
  (`get_psp_type`, `table_cell_style_listener`),
* `packages/perspective-viewer-datagrid/src/js/event_handlers/row_select_click.js`
  (`selectionListener`, `save`),
* `packages/perspective-viewer-d3fc/src/js/legend/styling/enableDragging.js`
  (`enforceContainerBoundaries`).

Modelling conventions: JS numbers that only ever participate in addition,
subtraction and comparison are modelled as rationals; machine array indexing
`arr[i]` is `Option`-valued (`undefined` is `none`); JS objects become Lean
structures whose absent fields are `none`.
-/

namespace Perspective

/-- JS array indexing `arr[i]` with an `Int` index: `undefined` (here `none`)
for a negative or an out-of-range index. -/
def jsIndex {α : Type} (l : List α) (i : Int) : Option α :=
  if i < 0 then none else l.get? i.toNat

/-! ## Per-column plugin configuration (`datagrid[PRIVATE_PLUGIN_SYMBOL]`) -/

/-- A value held by one of the color fields of a per-column plugin
configuration object: either a JS array of strings (a conditional color ramp)
or a single string (the reduced form that `save` produces). -/
inductive ColorField where
  | arrv : List String → ColorField
  | strv : String → ColorField
  deriving DecidableEq

/-- JS truthiness of a color field: `undefined` is falsy, an array is always
truthy (even when empty), a string is truthy iff nonempty. -/
def ColorField.truthy : Option ColorField → Bool
  | none => false
  | some (ColorField.arrv _) => true
  | some (ColorField.strv s) => !(s == "")

/-- JS `v?.[0]`: the first element of an array, the first character of a
string (as a one-character string), `undefined` otherwise. -/
def jsFirst : Option ColorField → Option ColorField
  | none => none
  | some (ColorField.arrv l) => l.head?.map ColorField.strv
  | some (ColorField.strv s) =>
      if s == "" then none else some (ColorField.strv (String.singleton s.front))

/-- A per-column plugin configuration object
(`datagrid[PRIVATE_PLUGIN_SYMBOL][col]`); the same shape also serves as a
per-column entry of the token returned by `save`.  Absent JS fields are
`none`. -/
structure ColConfig where
  pos_fg_color : Option ColorField
  neg_fg_color : Option ColorField
  pos_bg_color : Option ColorField
  neg_bg_color : Option ColorField
  color : Option ColorField
  number_fg_mode : Option String
  column_size_override : Option Int
  deriving DecidableEq

/-- The all-absent configuration object `{}`. -/
def emptyConfig : ColConfig := ⟨none, none, none, none, none, none, none⟩

/-! ## Cell styling (`style_handlers/table_cell/index.js`) -/

/-- The two type lookup tables of the model (`this._column_types` and
`this._row_header_types`), fixed for one render pass. -/
structure GridCtx where
  column_types : List String
  row_header_types : List String
  deriving DecidableEq

/-- The part of `regularTable.getMeta(td)` that the style listener reads.
`user` is the cell's user value, with `none` modelling JS `null`; only
boolean cell values are relevant to the styling decisions modelled here, so
the value itself is a `Bool`. -/
structure CellMetadata where
  x : Int
  row_header_x : Int
  column_header : List String
  user : Option Bool
  deriving DecidableEq

/-- The style surface of one rendered cell: the two inline colors
(`td.style.backgroundColor`, `td.style.color`), the four class-list flags the
listener toggles, and the header decoration written by the row-header
sub-rule. -/
structure CellStyle where
  backgroundColor : String
  color : String
  psp_bool_type : Bool
  psp_align_left : Bool
  psp_align_right : Bool
  psp_color_mode_bar : Bool
  row_header_decor : String
  deriving DecidableEq

/-- One rendered cell: its tag (`"TH"` for a header cell, `"TD"` otherwise),
its immutable render metadata and its mutable style surface. -/
structure Cell where
  tagName : String
  metadata : CellMetadata
  style : CellStyle
  deriving DecidableEq

/-- Modelled from the spec: the type-specific sub-rules
(`cell_style_numeric`, `cell_style_boolean`, `cell_style_string` and
`cell_style_datetime` of `style_handlers/table_cell/*.js`, files that are not
part of this excerpt) are pure functions of the resolved plugin configuration
and the cell metadata that write the cell's background and foreground colors;
`cell_style_row_header` applies header-specific decoration, orthogonal to the
type-based styling (spec section 4.1).  One record of such functions is fixed
per render pass (the functions close over the grid snapshot). -/
structure SubRules where
  cell_style_numeric : Option ColConfig → CellMetadata → String × String
  cell_style_boolean : Option ColConfig → CellMetadata → String × String
  cell_style_string : Option ColConfig → CellMetadata → String × String
  cell_style_datetime : Option ColConfig → CellMetadata → String × String
  cell_style_row_header : CellMetadata → String

/-- Translation of `get_psp_type(metadata)`: data columns (`metadata.x >= 0`) are resolved
through `this._column_types[metadata.x]`, row-header columns through
`this._row_header_types[metadata.row_header_x - 1]`; an out-of-range index
yields `undefined` (`none`). -/
def get_psp_type (ctx : GridCtx) (metadata : CellMetadata) : Option String :=
  if metadata.x ≥ 0 then jsIndex ctx.column_types metadata.x
  else jsIndex ctx.row_header_types (metadata.row_header_x - 1)

/-- The body of the cell loop of `table_cell_style_listener`, for one cell.
The type-dispatch chain picks the sub-rule that writes the cell's two colors
(the final `else` clears both), then the listener itself toggles
`psp-bool-type`, runs the row-header sub-rule on `TH` cells, and finally
toggles `psp-align-right`, `psp-align-left` and `psp-color-mode-bar`. -/
def style_cell (ctx : GridCtx) (plugins : List (String × ColConfig))
    (sr : SubRules) (cell : Cell) : Cell :=
  let metadata := cell.metadata
  let column_name := metadata.column_header.getLast?
  let type := get_psp_type ctx metadata
  let plugin := column_name.bind (fun n => List.lookup n plugins)
  let is_numeric : Bool := (type == some "integer") || (type == some "float")
  let colors : String × String :=
    if is_numeric then sr.cell_style_numeric plugin metadata
    else if type == some "boolean" then sr.cell_style_boolean plugin metadata
    else if type == some "string" then sr.cell_style_string plugin metadata
    else if (type == some "date") || (type == some "datetime") then
      sr.cell_style_datetime plugin metadata
    else ("", "")
  let s1 : CellStyle :=
    { cell.style with backgroundColor := colors.1, color := colors.2 }
  let s2 : CellStyle :=
    { s1 with psp_bool_type := (type == some "boolean") && metadata.user.isSome }
  let is_th : Bool := cell.tagName == "TH"
  let s3 : CellStyle :=
    if is_th then { s2 with row_header_decor := sr.cell_style_row_header metadata }
    else s2
  let s4 : CellStyle :=
    { s3 with
      psp_align_right := (!is_th) && is_numeric,
      psp_align_left := is_th || (!is_numeric),
      psp_color_mode_bar :=
        ((plugin.bind (fun p => p.number_fg_mode)) == some "bar") && is_numeric }
  { cell with style := s4 }

/-- Translation of `table_cell_style_listener(regularTable)`: visit every cell of every row
of the rendered snapshot and restyle it. -/
def table_cell_style_listener (ctx : GridCtx) (plugins : List (String × ColConfig))
    (sr : SubRules) (rows : List (List Cell)) : List (List Cell) :=
  rows.map (fun tr => tr.map (style_cell ctx plugins sr))

/-! ## Row selection (`event_handlers/row_select_click.js`, `selectionListener`) -/

/-- The part of `regularTable.getMeta(event.target)` that the selection
listener reads. -/
structure SelMeta where
  x : Int
  y : Int
  y0 : Int
  deriving DecidableEq

/-- The click event: `which` (1 is the primary button), the `handled`
re-entry flag, and the metadata resolved for the click target (`none` when
`getMeta` yields nothing). -/
structure ClickEvent where
  which : Int
  handled : Bool
  meta : Option SelMeta
  deriving DecidableEq

/-- The context of the selection listener: whether the viewer has the
`selectable` attribute, and `this._ids`, the identifying key sequence of each
visible row. -/
structure SelCtx where
  selectable : Bool
  ids : List (List String)
  deriving DecidableEq

/-- The observable outcome of one `selectionListener` call:
`selected_rows` is the entry of `selected_rows_map` for this table after the
call, and `dispatched` is the `selected` flag of the dispatched
`perspective-select` event (`none` when no event is dispatched).  The `draw`
call and the filter carried by the event involve external collaborators and
are outside the model. -/
structure SelOutcome where
  selected_rows : Option (List String)
  dispatched : Option Bool
  deriving DecidableEq

/-- Translation of `selected.reduce((agg, x, i) => agg && x === id[i], true)`
as the indexed conjunction it computes: every element of `selected` equals
the element of `id` at the same position (a position past the end of `id`
compares unequal, as `x === undefined` does). -/
def key_match_from (id : List String) : Nat → List String → Bool
  | _, [] => true
  | i, x :: rest => (id.get? i == some x) && key_match_from id (i + 1) rest

/-- Translation of `selected.reduce((agg, x, i) => agg && x === id[i], true)`. -/
def key_match (selected id : List String) : Bool := key_match_from id 0 selected

/-- Translation of `selectionListener(regularTable, viewer, selected_rows_map, event)` on
the entry of `selected_rows_map` for this table.  The guards return without
any effect; a primary click on a data row (`meta.y >= 0`) either deselects
(exact key-sequence match) or selects the clicked row and dispatches the
event.  `this._ids[meta.y - meta.y0]` is assumed in range (the claims below
carry that hypothesis); the `.getD []` default stands for the out-of-range
`undefined`, which the modelled paths never consume. -/
def selectionListener (ctx : SelCtx) (ev : ClickEvent)
    (sel : Option (List String)) : SelOutcome :=
  if !ctx.selectable then ⟨sel, none⟩
  else if ev.handled then ⟨sel, none⟩
  else if ev.which != 1 then ⟨sel, none⟩
  else
    match ev.meta with
    | none => ⟨sel, none⟩
    | some m =>
      if m.y ≥ 0 then
        let id := (jsIndex ctx.ids (m.y - m.y0)).getD []
        let km :=
          match sel with
          | some s => key_match s id
          | none => false
        let is_deselect :=
          match sel with
          | some s => (id.length == s.length) && km
          | none => false
        if is_deselect then ⟨none, some false⟩
        else ⟨some id, some true⟩
      else ⟨sel, none⟩

/-! ## Plugin state serialization (`event_handlers/row_select_click.js`, `save`) -/

/-- The state `save` reads: whether a `regular_table` is attached, the
per-column plugin configuration map (column name to heap reference), the heap
of configuration objects those references point into, the two flags, and the
result of `save_column_size_overrides` (modelled from the spec: that helper,
not part of this excerpt, returns the per-column size overrides). -/
structure GridPluginState where
  regular_table : Bool
  plugin : List (String × Nat)
  heap : List ColConfig
  is_scroll_lock : Bool
  is_edit_mode : Bool
  column_size_overrides : List (String × Int)
  deriving DecidableEq

/-- The token built by `save` when a table is attached. -/
structure SaveToken where
  columns : List (String × ColConfig)
  scroll_lock : Bool
  editable : Bool
  deriving DecidableEq

/-- The return value of `save`: the token, or the bare `{}` returned when no
table is attached. -/
inductive SaveResult where
  | emptyObj : SaveResult
  | token : SaveToken → SaveResult
  deriving DecidableEq

/-- The body of `save`'s first loop on one configuration object: the
`Object.assign({}, ...)` copy followed by the two guarded reductions of the
color fields.  `config?.pos_fg_color || config?.pos_bg_color` is JS
truthiness; each reduced field becomes `field?.[0]`. -/
def save_reduce_config (c : ColConfig) : ColConfig :=
  let c1 :=
    if ColorField.truthy c.pos_fg_color || ColorField.truthy c.pos_bg_color then
      { c with
        pos_fg_color := jsFirst c.pos_fg_color,
        neg_fg_color := jsFirst c.neg_fg_color,
        pos_bg_color := jsFirst c.pos_bg_color,
        neg_bg_color := jsFirst c.neg_bg_color }
    else c
  if ColorField.truthy c1.color then { c1 with color := jsFirst c1.color } else c1

/-- One iteration of `save`'s loop over `Object.keys(datagrid[PRIVATE_PLUGIN_SYMBOL])`:
read the stored object, allocate the shallow copy (`Object.assign({}, ...)`),
reduce the copy's color fields, and record the copy as the token entry for
that column.  The accumulator is the heap (which only grows by the fresh
copy) and `token.columns` so far. -/
def save_step (acc : List ColConfig × List (String × ColConfig))
    (p : String × Nat) : List ColConfig × List (String × ColConfig) :=
  let orig := (acc.1.get? p.2).getD emptyConfig
  let copy := save_reduce_config orig
  (acc.1 ++ [copy], acc.2 ++ [(p.1, copy)])

/-- The second loop of `save`, for one entry of `save_column_size_overrides`:
`token.columns[col]` is created as `{}` when absent (an existing object is
always truthy), then its `column_size_override` field is set.  Keys of a JS
object are unique, so updating every entry with the matching key coincides
with updating the single one. -/
def addOverride (cols : List (String × ColConfig)) (p : String × Int) :
    List (String × ColConfig) :=
  match List.lookup p.1 cols with
  | some _ =>
      cols.map (fun q =>
        if q.1 == p.1 then (q.1, { q.2 with column_size_override := some p.2 })
        else q)
  | none => cols ++ [(p.1, { emptyConfig with column_size_override := some p.2 })]

/-- Translation of `save()`: with no `regular_table` attached return `{}`; otherwise build
the token from the reduced per-column copies, merge the column size
overrides, and return it (the final `JSON.parse(JSON.stringify(token))` is
the identity on the token's modelled value).  The second component is the
heap after the call, recording the allocations `save` made. -/
def save (st : GridPluginState) : SaveResult × List ColConfig :=
  if st.regular_table then
    let r := st.plugin.foldl save_step (st.heap, [])
    let cols := st.column_size_overrides.foldl addOverride r.2
    (SaveResult.token ⟨cols, st.is_scroll_lock, st.is_edit_mode⟩, r.1)
  else (SaveResult.emptyObj, st.heap)

/-! ## Legend dragging (`legend/styling/enableDragging.js`) -/

/-- A DOM bounding client rectangle, with rational coordinates. -/
structure Rect where
  top : ℚ
  right : ℚ
  bottom : ℚ
  left : ℚ
  deriving DecidableEq

/-- One of the four container edges. -/
inductive Edge where
  | top : Edge
  | right : Edge
  | bottom : Edge
  | left : Edge
  deriving DecidableEq

/-- The dimension an edge constrains. -/
inductive Dim where
  | x : Dim
  | y : Dim
  deriving DecidableEq

/-- The coordinate of a rectangle at a given edge. -/
def Rect.edgeVal (r : Rect) : Edge → ℚ
  | Edge.top => r.top
  | Edge.right => r.right
  | Edge.bottom => r.bottom
  | Edge.left => r.left

/-- Modelled from the spec: `isElementOverflowing` of `utils/utils` (not part
of this excerpt) reports whether the dragged bounding box exceeds the
container's bounding box at the given edge (spec section 6: clamping applies
"when the dragged bounding box (plus fixed margin) would exceed the
container's bounding box"). -/
def isElementOverflowing (container el : Rect) : Edge → Bool
  | Edge.right => decide (el.right > container.right)
  | Edge.left => decide (el.left < container.left)
  | Edge.top => decide (el.top < container.top)
  | Edge.bottom => decide (el.bottom > container.bottom)

/-- The `boundaries` array of `enforceContainerBoundaries`, in source
order. -/
def boundaries : List (Edge × Dim) :=
  [(Edge.right, Dim.x), (Edge.left, Dim.x), (Edge.top, Dim.y), (Edge.bottom, Dim.y)]

/-- Translation of `enforceContainerBoundaries(legendNode, offsetX, offsetY)`: build the
margin-extended dragged rectangle once from the input offsets, then fold over
the four boundaries, subtracting each overflowing edge's excess from the
offset of that edge's dimension. -/
def enforceContainerBoundaries (chartNodeRect legendNodeRect : Rect)
    (offsetX offsetY : ℚ) : ℚ × ℚ :=
  let margin : ℚ := 10
  let draggedLegendNodeRect : Rect :=
    { top := legendNodeRect.top + offsetY - margin,
      right := legendNodeRect.right + offsetX + margin,
      bottom := legendNodeRect.bottom + offsetY + margin,
      left := legendNodeRect.left + offsetX - margin }
  let adjustedOffsets :=
    boundaries.foldl
      (fun acc b =>
        if isElementOverflowing chartNodeRect draggedLegendNodeRect b.1 then
          let adjustment :=
            draggedLegendNodeRect.edgeVal b.1 - chartNodeRect.edgeVal b.1
          match b.2 with
          | Dim.x => (acc.1 - adjustment, acc.2)
          | Dim.y => (acc.1, acc.2 - adjustment)
        else acc)
      (offsetX, offsetY)
  adjustedOffsets

/-! ## Concrete inputs used by the witnesses below -/

/-- A record of constant sub-rules, used by the concrete witnesses. -/
def srConst : SubRules :=
  ⟨fun _ _ => ("", ""), fun _ _ => ("", ""), fun _ _ => ("", ""),
   fun _ _ => ("", ""), fun _ => ""⟩

/-- An all-clear cell style. -/
def style0 : CellStyle := ⟨"", "", false, false, false, false, ""⟩

/-- A one-column grid context whose single data column is boolean. -/
def ctxBool : GridCtx := ⟨["boolean"], []⟩

/-- A boolean data cell with user value `true`. -/
def cellBool : Cell := ⟨"TD", ⟨0, 0, ["col"], some true⟩, style0⟩

/-- A one-column grid context whose single data column is integer. -/
def ctxNum : GridCtx := ⟨["integer"], []⟩

/-- An integer data cell. -/
def cellNum : Cell := ⟨"TD", ⟨0, 0, ["col"], none⟩, style0⟩

/-- A plugin configuration map requesting bar-mode rendering for column
`col`. -/
def pluginsBar : List (String × ColConfig) :=
  [("col", { emptyConfig with number_fg_mode := some "bar" })]

/-- A grid context with empty type tables: every type lookup yields the
unknown classification. -/
def ctxUnknown : GridCtx := ⟨[], []⟩

/-- A data cell whose type lookup lands out of range. -/
def cellUnknown : Cell := ⟨"TD", ⟨0, 0, ["col"], none⟩, style0⟩

/-- A selectable viewer with one visible row whose key sequence is
`["r1"]`. -/
def selCtx0 : SelCtx := ⟨true, [["r1"]]⟩

/-- A primary-button click on the first visible row. -/
def selMeta0 : SelMeta := ⟨0, 0, 0⟩

/-- The click event carrying `selMeta0`. -/
def selEv0 : ClickEvent := ⟨1, false, some selMeta0⟩

/-- A configuration holding only a two-element `neg_fg_color` ramp and no
positive color field. -/
def cfgNeg : ColConfig :=
  { emptyConfig with neg_fg_color := some (ColorField.arrv ["red", "blue"]) }

/-- A plugin state with `cfgNeg` stored for column `a`. -/
def stNeg : GridPluginState := ⟨true, [("a", 0)], [cfgNeg], false, false, []⟩

/-- A configuration with positive/negative foreground ramps and a color
ramp. -/
def cfgPos : ColConfig :=
  { emptyConfig with
    pos_fg_color := some (ColorField.arrv ["x1", "x2"]),
    neg_fg_color := some (ColorField.arrv ["u1", "u2"]),
    color := some (ColorField.arrv ["c1", "c2"]) }

/-- A plugin state with `cfgPos` stored for column `a`. -/
def stPos : GridPluginState := ⟨true, [("a", 0)], [cfgPos], false, false, []⟩

/-- A plugin state with no `regular_table` attached. -/
def stNoTable : GridPluginState := ⟨false, [], [], false, false, []⟩

/-- A plugin state with one stored configuration and one size override. -/
def stMix : GridPluginState :=
  ⟨true, [("b", 0)], [cfgPos], true, false, [("c", 7)]⟩

/-- A 100 by 100 container rectangle. -/
def chartRect0 : Rect := ⟨0, 100, 100, 0⟩

/-- A legend rectangle well inside `chartRect0`. -/
def legendRect0 : Rect := ⟨30, 80, 60, 50⟩

/-! ## Facts about `style_cell` -/

theorem style_cell_tagName (ctx : GridCtx) (p : List (String × ColConfig))
    (sr : SubRules) (c : Cell) : (style_cell ctx p sr c).tagName = c.tagName := rfl

theorem style_cell_metadata (ctx : GridCtx) (p : List (String × ColConfig))
    (sr : SubRules) (c : Cell) : (style_cell ctx p sr c).metadata = c.metadata := rfl

theorem style_cell_align_right (ctx : GridCtx) (p : List (String × ColConfig))
    (sr : SubRules) (c : Cell) :
    (style_cell ctx p sr c).style.psp_align_right =
      ((!(c.tagName == "TH")) &&
        ((get_psp_type ctx c.metadata == some "integer") ||
         (get_psp_type ctx c.metadata == some "float"))) := rfl

theorem style_cell_align_left (ctx : GridCtx) (p : List (String × ColConfig))
    (sr : SubRules) (c : Cell) :
    (style_cell ctx p sr c).style.psp_align_left =
      ((c.tagName == "TH") ||
        (!((get_psp_type ctx c.metadata == some "integer") ||
           (get_psp_type ctx c.metadata == some "float")))) := rfl

theorem style_cell_bar (ctx : GridCtx) (p : List (String × ColConfig))
    (sr : SubRules) (c : Cell) :
    (style_cell ctx p sr c).style.psp_color_mode_bar =
      ((((c.metadata.column_header.getLast?).bind
            (fun n => List.lookup n p)).bind (fun q => q.number_fg_mode) == some "bar") &&
        ((get_psp_type ctx c.metadata == some "integer") ||
         (get_psp_type ctx c.metadata == some "float"))) := rfl

theorem style_cell_bool_marker (ctx : GridCtx) (p : List (String × ColConfig))
    (sr : SubRules) (c : Cell) :
    (style_cell ctx p sr c).style.psp_bool_type =
      ((get_psp_type ctx c.metadata == some "boolean") && c.metadata.user.isSome) := by
  simp only [style_cell]
  split <;> rfl

theorem style_cell_unknown_colors (ctx : GridCtx) (p : List (String × ColConfig))
    (sr : SubRules) (c : Cell)
    (h1 : get_psp_type ctx c.metadata ≠ some "integer")
    (h2 : get_psp_type ctx c.metadata ≠ some "float")
    (h3 : get_psp_type ctx c.metadata ≠ some "boolean")
    (h4 : get_psp_type ctx c.metadata ≠ some "string")
    (h5 : get_psp_type ctx c.metadata ≠ some "date")
    (h6 : get_psp_type ctx c.metadata ≠ some "datetime") :
    (style_cell ctx p sr c).style.backgroundColor = "" ∧
      (style_cell ctx p sr c).style.color = "" := by
  have e1 : (get_psp_type ctx c.metadata == some "integer") = false := by
    simpa using h1
  have e2 : (get_psp_type ctx c.metadata == some "float") = false := by
    simpa using h2
  have e3 : (get_psp_type ctx c.metadata == some "boolean") = false := by
    simpa using h3
  have e4 : (get_psp_type ctx c.metadata == some "string") = false := by
    simpa using h4
  have e5 : (get_psp_type ctx c.metadata == some "date") = false := by
    simpa using h5
  have e6 : (get_psp_type ctx c.metadata == some "datetime") = false := by
    simpa using h6
  simp only [style_cell, e1, e2, e3, e4, e5, e6, Bool.or_self, Bool.false_or,
    Bool.or_false, if_false, Bool.false_eq_true]
  constructor <;> split <;> rfl

theorem style_cell_idem (ctx : GridCtx) (p : List (String × ColConfig))
    (sr : SubRules) (c : Cell) :
    style_cell ctx p sr (style_cell ctx p sr c) = style_cell ctx p sr c := by
  by_cases hth : (c.tagName == "TH") = true <;>
    by_cases hnum : ((get_psp_type ctx c.metadata == some "integer") ||
      (get_psp_type ctx c.metadata == some "float")) = true <;>
    by_cases hb : (get_psp_type ctx c.metadata == some "boolean") = true <;>
    by_cases hs : (get_psp_type ctx c.metadata == some "string") = true <;>
    by_cases hd : ((get_psp_type ctx c.metadata == some "date") ||
      (get_psp_type ctx c.metadata == some "datetime")) = true <;>
    simp [style_cell, hth, hnum, hb, hs, hd]

/-! ## Claims C1 to C5: the cell style resolver -/

/-- Claim C1: the cell-style resolver is idempotent — invoking
`table_cell_style_listener` twice in succession on the same grid snapshot and
plugin configuration yields exactly the same final style attribute set on
every cell as invoking it once; no stale classes or colors accumulate. -/
theorem table_cell_style_idem (ctx : GridCtx) (p : List (String × ColConfig))
    (sr : SubRules) (rows : List (List Cell)) :
    table_cell_style_listener ctx p sr (table_cell_style_listener ctx p sr rows) =
      table_cell_style_listener ctx p sr rows := by
  simp [table_cell_style_listener, List.map_map, Function.comp_def, style_cell_idem]

/-- Claim C2: for every cell processed by `table_cell_style_listener`, the
`psp-bool-type` class is active after the pass if and only if the cell's
resolved type is boolean and the cell's user value is non-null. -/
theorem psp_bool_type_iff (ctx : GridCtx) (plugins : List (String × ColConfig))
    (sr : SubRules) (rows : List (List Cell)) (tr : List Cell) (cell : Cell)
    (h1 : tr ∈ table_cell_style_listener ctx plugins sr rows) (h2 : cell ∈ tr) :
    (cell.style.psp_bool_type = true ↔
      (get_psp_type ctx cell.metadata = some "boolean" ∧
        cell.metadata.user ≠ none)) := by
  simp only [table_cell_style_listener] at h1
  rcases List.mem_map.mp h1 with ⟨tr0, _, rfl⟩
  rcases List.mem_map.mp h2 with ⟨c0, _, rfl⟩
  rw [style_cell_metadata, style_cell_bool_marker]
  simp [Option.isSome_iff_ne_none]

theorem psp_bool_type_iff_witness :
    ((style_cell ctxBool [] srConst cellBool).style.psp_bool_type = true ↔
      (get_psp_type ctxBool (style_cell ctxBool [] srConst cellBool).metadata =
          some "boolean" ∧
        (style_cell ctxBool [] srConst cellBool).metadata.user ≠ none)) :=
  psp_bool_type_iff ctxBool [] srConst [[cellBool]]
    ([cellBool].map (style_cell ctxBool [] srConst))
    (style_cell ctxBool [] srConst cellBool)
    (by simp [table_cell_style_listener]) (by simp)

/-- Claim C3: after a resolver pass, `psp-align-right` is active iff the cell
is a non-header (non-`TH`) cell of numeric type, `psp-align-left` is the
exact negation of `psp-align-right` (so exactly one of the two is active on
every cell), and every header cell is left-aligned regardless of type. -/
theorem psp_align_iff (ctx : GridCtx) (plugins : List (String × ColConfig))
    (sr : SubRules) (rows : List (List Cell)) (tr : List Cell) (cell : Cell)
    (h1 : tr ∈ table_cell_style_listener ctx plugins sr rows) (h2 : cell ∈ tr) :
    ((cell.style.psp_align_right = true ↔
        (cell.tagName ≠ "TH" ∧
          (get_psp_type ctx cell.metadata = some "integer" ∨
            get_psp_type ctx cell.metadata = some "float"))) ∧
      cell.style.psp_align_left = !cell.style.psp_align_right ∧
      (cell.tagName = "TH" →
        cell.style.psp_align_left = true ∧ cell.style.psp_align_right = false)) := by
  simp only [table_cell_style_listener] at h1
  rcases List.mem_map.mp h1 with ⟨tr0, _, rfl⟩
  rcases List.mem_map.mp h2 with ⟨c0, _, rfl⟩
  rw [style_cell_tagName, style_cell_metadata, style_cell_align_left,
    style_cell_align_right]
  refine ⟨?_, ?_, ?_⟩
  · simp [Bool.and_eq_true, Bool.not_eq_true']
  · simp [Bool.not_and, Bool.not_not]
  · intro hth
    simp [hth]

theorem psp_align_iff_witness :
    (((style_cell ctxNum [] srConst cellNum).style.psp_align_right = true ↔
        ((style_cell ctxNum [] srConst cellNum).tagName ≠ "TH" ∧
          (get_psp_type ctxNum (style_cell ctxNum [] srConst cellNum).metadata =
              some "integer" ∨
            get_psp_type ctxNum (style_cell ctxNum [] srConst cellNum).metadata =
              some "float"))) ∧
      (style_cell ctxNum [] srConst cellNum).style.psp_align_left =
        !(style_cell ctxNum [] srConst cellNum).style.psp_align_right ∧
      ((style_cell ctxNum [] srConst cellNum).tagName = "TH" →
        (style_cell ctxNum [] srConst cellNum).style.psp_align_left = true ∧
          (style_cell ctxNum [] srConst cellNum).style.psp_align_right = false)) :=
  psp_align_iff ctxNum [] srConst [[cellNum]]
    ([cellNum].map (style_cell ctxNum [] srConst))
    (style_cell ctxNum [] srConst cellNum)
    (by simp [table_cell_style_listener]) (by simp)

/-- Claim C4: a cell whose resolved type is outside
integer/float/boolean/string/date/datetime gets both its background and
foreground color set to the empty string; and an out-of-range index in
either type table silently resolves to the unknown classification (`none`)
rather than an error. -/
theorem unknown_type_clears_colors (ctx : GridCtx)
    (plugins : List (String × ColConfig)) (sr : SubRules)
    (rows : List (List Cell)) (tr : List Cell) (cell : Cell)
    (h1 : tr ∈ table_cell_style_listener ctx plugins sr rows) (h2 : cell ∈ tr)
    (htype : get_psp_type ctx cell.metadata ≠ some "integer" ∧
      get_psp_type ctx cell.metadata ≠ some "float" ∧
      get_psp_type ctx cell.metadata ≠ some "boolean" ∧
      get_psp_type ctx cell.metadata ≠ some "string" ∧
      get_psp_type ctx cell.metadata ≠ some "date" ∧
      get_psp_type ctx cell.metadata ≠ some "datetime") :
    ((cell.style.backgroundColor = "" ∧ cell.style.color = "") ∧
      (∀ m : CellMetadata, 0 ≤ m.x → ctx.column_types.length ≤ m.x.toNat →
        get_psp_type ctx m = none) ∧
      (∀ m : CellMetadata, m.x < 0 →
        (m.row_header_x - 1 < 0 ∨
          ctx.row_header_types.length ≤ (m.row_header_x - 1).toNat) →
        get_psp_type ctx m = none)) := by
  simp only [table_cell_style_listener] at h1
  rcases List.mem_map.mp h1 with ⟨tr0, _, rfl⟩
  rcases List.mem_map.mp h2 with ⟨c0, _, rfl⟩
  rw [style_cell_metadata] at htype
  obtain ⟨g1, g2, g3, g4, g5, g6⟩ := htype
  refine ⟨style_cell_unknown_colors ctx plugins sr c0 g1 g2 g3 g4 g5 g6, ?_, ?_⟩
  · intro m hx hlen
    simp only [get_psp_type, jsIndex]
    rw [if_pos hx, if_neg (by omega)]
    exact List.get?_eq_none.mpr hlen
  · intro m hx hcase
    simp only [get_psp_type, jsIndex]
    rw [if_neg (by omega)]
    rcases hcase with hneg | hlen
    · rw [if_pos hneg]
    · by_cases hneg : m.row_header_x - 1 < 0
      · rw [if_pos hneg]
      · rw [if_neg hneg]
        exact List.get?_eq_none.mpr hlen

theorem unknown_type_clears_colors_witness :
    (((style_cell ctxUnknown [] srConst cellUnknown).style.backgroundColor = "" ∧
        (style_cell ctxUnknown [] srConst cellUnknown).style.color = "") ∧
      (∀ m : CellMetadata, 0 ≤ m.x → ctxUnknown.column_types.length ≤ m.x.toNat →
        get_psp_type ctxUnknown m = none) ∧
      (∀ m : CellMetadata, m.x < 0 →
        (m.row_header_x - 1 < 0 ∨
          ctxUnknown.row_header_types.length ≤ (m.row_header_x - 1).toNat) →
        get_psp_type ctxUnknown m = none)) :=
  unknown_type_clears_colors ctxUnknown [] srConst [[cellUnknown]]
    ([cellUnknown].map (style_cell ctxUnknown [] srConst))
    (style_cell ctxUnknown [] srConst cellUnknown)
    (by simp [table_cell_style_listener]) (by simp) (by decide)

/-- Claim C5: after a resolver pass, `psp-color-mode-bar` is active iff the
plugin configuration resolved for the cell's column name has its
`number_fg_mode` field equal to `"bar"` and the cell's resolved type is
numeric; on a non-numeric cell the marker stays inactive whatever the
configuration says. -/
theorem psp_color_mode_bar_iff (ctx : GridCtx)
    (plugins : List (String × ColConfig)) (sr : SubRules)
    (rows : List (List Cell)) (tr : List Cell) (cell : Cell)
    (h1 : tr ∈ table_cell_style_listener ctx plugins sr rows) (h2 : cell ∈ tr) :
    (cell.style.psp_color_mode_bar = true ↔
      (((cell.metadata.column_header.getLast?).bind
            (fun n => List.lookup n plugins)).bind (fun q => q.number_fg_mode) =
          some "bar" ∧
        (get_psp_type ctx cell.metadata = some "integer" ∨
          get_psp_type ctx cell.metadata = some "float"))) := by
  simp only [table_cell_style_listener] at h1
  rcases List.mem_map.mp h1 with ⟨tr0, _, rfl⟩
  rcases List.mem_map.mp h2 with ⟨c0, _, rfl⟩
  rw [style_cell_metadata, style_cell_bar]
  simp

theorem psp_color_mode_bar_iff_witness :
    ((style_cell ctxNum pluginsBar srConst cellNum).style.psp_color_mode_bar = true ↔
      ((((style_cell ctxNum pluginsBar srConst cellNum).metadata.column_header.getLast?).bind
            (fun n => List.lookup n pluginsBar)).bind (fun q => q.number_fg_mode) =
          some "bar" ∧
        (get_psp_type ctxNum (style_cell ctxNum pluginsBar srConst cellNum).metadata =
            some "integer" ∨
          get_psp_type ctxNum (style_cell ctxNum pluginsBar srConst cellNum).metadata =
            some "float"))) :=
  psp_color_mode_bar_iff ctxNum pluginsBar srConst [[cellNum]]
    ([cellNum].map (style_cell ctxNum pluginsBar srConst))
    (style_cell ctxNum pluginsBar srConst cellNum)
    (by simp [table_cell_style_listener]) (by simp)

/-! ## Claim C6: row-selection toggle -/

theorem key_match_from_iff (s id : List String) (n : Nat) :
    key_match_from id n s = true ↔
      ∀ i x, s.get? i = some x → id.get? (n + i) = some x := by
  induction s generalizing n with
  | nil => simp [key_match_from]
  | cons x rest ih =>
    simp only [key_match_from, Bool.and_eq_true, beq_iff_eq]
    constructor
    · rintro ⟨hx, hrest⟩ i y hy
      cases i with
      | zero =>
        simp only [List.get?_cons_zero, Option.some.injEq] at hy
        subst hy
        simpa using hx
      | succ j =>
        have := (ih (n + 1)).mp hrest j y (by simpa using hy)
        have harith : n + 1 + j = n + (j + 1) := by omega
        rw [harith] at this
        exact this
    · intro h
      refine ⟨by simpa using h 0 x (by simp), (ih (n + 1)).mpr ?_⟩
      intro j y hy
      have := h (j + 1) y (by simpa using hy)
      have harith : n + (j + 1) = n + 1 + j := by omega
      rw [harith] at this
      exact this

theorem key_match_eq_iff (s id : List String) (hlen : id.length = s.length) :
    key_match s id = true ↔ s = id := by
  constructor
  · intro h
    apply List.ext_get?
    intro n
    cases hs : s.get? n with
    | some x =>
      have := (key_match_from_iff s id 0).mp h n x hs
      simpa using this.symm
    | none =>
      have hn : s.length ≤ n := List.get?_eq_none.mp hs
      rw [List.get?_eq_none.mpr (by omega)]
  · rintro rfl
    exact (key_match_from_iff s s 0).mpr (fun i x hx => by simpa using hx)

theorem key_match_refl (s : List String) : key_match s s = true :=
  (key_match_eq_iff s s rfl).mpr rfl

/-- Claim C6: for a primary-button click carrying metadata of a data row
(`meta.y >= 0`, key sequence `id` in range), `selectionListener` deselects
and dispatches `selected: false` when the stored selection exactly matches
the clicked row's key sequence, otherwise stores that key sequence and
dispatches `selected: true`; a click with a non-primary button dispatches no
event and changes nothing. -/
theorem selection_toggle (ctx : SelCtx) (ev : ClickEvent)
    (sel : Option (List String)) (m : SelMeta) (id : List String)
    (hsel : ctx.selectable = true) (hh : ev.handled = false)
    (hm : ev.meta = some m) (hy : 0 ≤ m.y)
    (hid : jsIndex ctx.ids (m.y - m.y0) = some id) :
    ((ev.which = 1 →
        ((sel = some id → selectionListener ctx ev sel = ⟨none, some false⟩) ∧
          (sel ≠ some id →
            selectionListener ctx ev sel = ⟨some id, some true⟩))) ∧
      (ev.which ≠ 1 → selectionListener ctx ev sel = ⟨sel, none⟩)) := by
  constructor
  · intro hw
    rcases sel with _ | s
    · refine ⟨fun h => Option.noConfusion h, fun _ => ?_⟩
      simp [selectionListener, hsel, hh, hm, hw, hy, hid]
    · by_cases hs : s = id
      · subst hs
        refine ⟨fun _ => ?_, fun hne => absurd rfl hne⟩
        simp [selectionListener, hsel, hh, hm, hw, hy, hid, key_match_refl]
      · refine ⟨fun heq => absurd (Option.some.inj heq) hs, fun _ => ?_⟩
        have hdesel : ((id.length == s.length) && key_match s id) = false := by
          by_cases hlen : id.length = s.length
          · have hkm : key_match s id = false := by
              cases hkm : key_match s id
              · rfl
              · exact absurd ((key_match_eq_iff s id hlen).mp hkm) hs
            simp [hkm]
          · simp [hlen]
        simp [selectionListener, hsel, hh, hm, hw, hy, hid, hdesel]
  · intro hw
    have hbne : (ev.which != 1) = true := by simpa using hw
    simp [selectionListener, hsel, hh, hm, hbne]

theorem selection_toggle_witness :
    selectionListener selCtx0 selEv0 none = ⟨some ["r1"], some true⟩ ∧
      selectionListener selCtx0 selEv0 (some ["r1"]) = ⟨none, some false⟩ :=
  ⟨((selection_toggle selCtx0 selEv0 none selMeta0 ["r1"] rfl rfl rfl
      (by decide) (by decide)).1 rfl).2 (by decide),
    ((selection_toggle selCtx0 selEv0 (some ["r1"]) selMeta0 ["r1"] rfl rfl rfl
      (by decide) (by decide)).1 rfl).1 rfl⟩

/-! ## Claims C7 and C10: `save` -/

theorem save_foldl_heap (ps : List (String × Nat)) (h : List ColConfig)
    (acc : List (String × ColConfig)) :
    ∃ t, (ps.foldl save_step (h, acc)).1 = h ++ t := by
  induction ps generalizing h acc with
  | nil => exact ⟨[], by simp⟩
  | cons p ps ih =>
    rcases ih (h ++ [save_reduce_config ((h.get? p.2).getD emptyConfig)])
        (acc ++ [(p.1, save_reduce_config ((h.get? p.2).getD emptyConfig))]) with
      ⟨t, ht⟩
    refine ⟨save_reduce_config ((h.get? p.2).getD emptyConfig) :: t, ?_⟩
    simp only [List.foldl_cons, save_step] at ht ⊢
    rw [ht]
    simp

theorem save_foldl_get? (ps : List (String × Nat)) (h : List ColConfig)
    (acc : List (String × ColConfig)) (r : Nat) (hr : r < h.length) :
    ((ps.foldl save_step (h, acc)).1).get? r = h.get? r := by
  rcases save_foldl_heap ps h acc with ⟨t, ht⟩
  rw [ht]
  exact List.get?_append hr

theorem save_foldl_entries (ps : List (String × Nat)) (hbase : List ColConfig)
    (t : List ColConfig) (acc : List (String × ColConfig))
    (hv : ∀ p ∈ ps, p.2 < hbase.length) :
    (ps.foldl save_step (hbase ++ t, acc)).2 =
      acc ++ ps.map (fun p =>
        (p.1, save_reduce_config ((hbase.get? p.2).getD emptyConfig))) := by
  induction ps generalizing t acc with
  | nil => simp
  | cons p ps ih =>
    have hp : p.2 < hbase.length := hv p (by simp)
    have hg : (hbase ++ t).get? p.2 = hbase.get? p.2 := List.get?_append hp
    simp only [List.foldl_cons, save_step, hg]
    have step := ih (t ++ [save_reduce_config ((hbase.get? p.2).getD emptyConfig)])
      (acc ++ [(p.1, save_reduce_config ((hbase.get? p.2).getD emptyConfig))])
      (fun q hq => hv q (by simp [hq]))
    rw [List.append_assoc]
    rw [step]
    simp

theorem lookup_map_entries (ps : List (String × Nat)) (col : String) (ref : Nat)
    (g : Nat → ColConfig) (hlk : List.lookup col ps = some ref) :
    List.lookup col (ps.map (fun p => (p.1, g p.2))) = some (g ref) := by
  induction ps with
  | nil => simp at hlk
  | cons p ps ih =>
    rcases p with ⟨k, v⟩
    simp only [List.map_cons, List.lookup] at hlk ⊢
    cases hk : col == k with
    | true =>
      rw [hk] at hlk
      simp only [Option.some.injEq] at hlk
      subst hlk
      rfl
    | false =>
      rw [hk] at hlk
      exact ih hlk

theorem save_spec (st : GridPluginState) (hrt : st.regular_table = true)
    (hv : ∀ p ∈ st.plugin, p.2 < st.heap.length) :
    ∃ t, save st =
      (SaveResult.token
        ⟨st.column_size_overrides.foldl addOverride
            (st.plugin.map (fun p =>
              (p.1, save_reduce_config ((st.heap.get? p.2).getD emptyConfig)))),
          st.is_scroll_lock, st.is_edit_mode⟩,
        st.heap ++ t) := by
  rcases save_foldl_heap st.plugin st.heap [] with ⟨t, ht⟩
  refine ⟨t, ?_⟩
  have he : (st.plugin.foldl save_step (st.heap, [])).2 =
      st.plugin.map (fun p =>
        (p.1, save_reduce_config ((st.heap.get? p.2).getD emptyConfig))) := by
    have := save_foldl_entries st.plugin st.heap [] [] hv
    simpa using this
  simp [save, hrt, ht, he]

/-- Claim C10 (frame effect of `save`): every per-column configuration object
stored under the datagrid's private plugin symbol is identical before and
after a `save()` call — the call only allocates fresh shallow copies and
reduces the copies' color fields, so every heap location that existed before
the call is unchanged.  (The returned token is a pure value here; the JSON
round-trip aliasing aspect has no observable counterpart in the
embedding.) -/
theorem save_frame (st : GridPluginState) (r : Nat) (hr : r < st.heap.length) :
    (save st).2.get? r = st.heap.get? r := by
  by_cases hrt : st.regular_table = true
  · simp only [save, hrt, if_true]
    exact save_foldl_get? st.plugin st.heap [] r hr
  · simp [save, hrt]

theorem save_frame_witness : (save stMix).2.get? 0 = stMix.heap.get? 0 :=
  save_frame stMix 0 (by decide)

/-- Counterexample to claim C7 as stated: `save` does not reduce every color
field stored as a multi-element array.  In `stNeg` the column `a` stores a
two-element `neg_fg_color` ramp and no positive color field, so the guard
`config?.pos_fg_color || config?.pos_bg_color` fails and the returned token
keeps the whole array instead of its first element. -/
theorem save_c7_counterexample :
    (save stNeg).1 = SaveResult.token ⟨[("a", cfgNeg)], false, false⟩ ∧
      cfgNeg.neg_fg_color = some (ColorField.arrv ["red", "blue"]) ∧
      cfgNeg.neg_fg_color ≠ some (ColorField.strv "red") := by
  refine ⟨by decide, rfl, by decide⟩

/-- Claim C7 as amended: `save()` returns `{}` when no table is attached;
otherwise each stored column appears in the returned token as its reduced
shallow copy, where the four positive/negative color fields are reduced to
their `?.[0]` first elements whenever `pos_fg_color` or `pos_bg_color` is
present (truthy) — not unconditionally, as the counterexample shows — and
`color` is reduced whenever present; the first element of a stored
multi-element array is exactly the head string; calling `save` twice in
succession (the second call seeing the heap left by the first) returns the
same token; and a column having only a size override gets a default `{}`
entry carrying the override. -/
theorem save_amended :
    (∀ st : GridPluginState, st.regular_table = false →
        save st = (SaveResult.emptyObj, st.heap)) ∧
      (∀ st : GridPluginState, ∀ col : String, ∀ ref : Nat, ∀ c : ColConfig,
        st.regular_table = true →
        (∀ p ∈ st.plugin, p.2 < st.heap.length) →
        st.column_size_overrides = [] →
        List.lookup col st.plugin = some ref →
        st.heap.get? ref = some c →
        ∃ tok t, save st = (SaveResult.token tok, st.heap ++ t) ∧
          tok.scroll_lock = st.is_scroll_lock ∧ tok.editable = st.is_edit_mode ∧
          List.lookup col tok.columns = some (save_reduce_config c)) ∧
      (∀ c : ColConfig,
        (((ColorField.truthy c.pos_fg_color || ColorField.truthy c.pos_bg_color) = true →
          (save_reduce_config c).pos_fg_color = jsFirst c.pos_fg_color ∧
            (save_reduce_config c).neg_fg_color = jsFirst c.neg_fg_color ∧
            (save_reduce_config c).pos_bg_color = jsFirst c.pos_bg_color ∧
            (save_reduce_config c).neg_bg_color = jsFirst c.neg_bg_color) ∧
          (ColorField.truthy c.color = true →
            (save_reduce_config c).color = jsFirst c.color) ∧
          (∀ x : String, ∀ rest : List String,
            jsFirst (some (ColorField.arrv (x :: rest))) =
              some (ColorField.strv x)))) ∧
      (∀ st : GridPluginState, st.regular_table = true →
        (∀ p ∈ st.plugin, p.2 < st.heap.length) →
        (save { st with heap := (save st).2 }).1 = (save st).1) ∧
      (∀ st : GridPluginState, ∀ col : String, ∀ sz : Int,
        st.regular_table = true → st.plugin = [] →
        st.column_size_overrides = [(col, sz)] →
        (save st).1 = SaveResult.token
          ⟨[(col, { emptyConfig with column_size_override := some sz })],
            st.is_scroll_lock, st.is_edit_mode⟩) := by
  refine ⟨?_, ?_, ?_, ?_, ?_⟩
  · intro st h
    simp [save, h]
  · intro st col ref c hrt hv hov hlk hc
    rcases save_spec st hrt hv with ⟨t, ht⟩
    refine ⟨_, t, ht, rfl, rfl, ?_⟩
    rw [hov]
    simp only [List.foldl_nil]
    have hlk2 : List.lookup col (st.plugin.map (fun p =>
        (p.1, save_reduce_config ((st.heap.get? p.2).getD emptyConfig)))) =
        some (save_reduce_config ((st.heap.get? ref).getD emptyConfig)) := by
      simpa using lookup_map_entries st.plugin col ref
        (fun r => save_reduce_config ((st.heap.get? r).getD emptyConfig)) hlk
    have hc2 : st.heap[ref]? = some c := by
      rw [← List.get?_eq_getElem?]
      exact hc
    rw [hlk2]
    simp [hc2]
  · intro c
    refine ⟨?_, ?_, ?_⟩
    · intro hguard
      simp only [save_reduce_config, hguard, if_true]
      split <;> simp
    · intro hcolor
      simp only [save_reduce_config]
      split <;> simp_all
    · intro x rest
      simp [jsFirst]
  · intro st hrt hv
    rcases save_spec st hrt hv with ⟨t, ht⟩
    have h2 : (save st).2 = st.heap ++ t := by rw [ht]
    have hv2 : ∀ p ∈ st.plugin, p.2 < (save st).2.length := by
      intro p hp
      have h3 := hv p hp
      rw [h2, List.length_append]
      omega
    rcases save_spec { st with heap := (save st).2 } hrt hv2 with ⟨t2, ht2⟩
    have hmap : st.plugin.map (fun p =>
        (p.1, save_reduce_config (((st.heap ++ t)[p.2]?).getD emptyConfig))) =
        st.plugin.map (fun p =>
        (p.1, save_reduce_config ((st.heap[p.2]?).getD emptyConfig))) := by
      apply List.map_congr_left
      intro p hp
      rw [List.getElem?_append_left (hv p hp)]
    rw [ht2, ht]
    simp [h2, hmap]
  · intro st col sz hrt hpl hov
    simp [save, hrt, hpl, hov, addOverride]

theorem save_amended_witness :
    save stNoTable = (SaveResult.emptyObj, stNoTable.heap) ∧
      (∃ tok t, save stPos = (SaveResult.token tok, stPos.heap ++ t) ∧
        tok.scroll_lock = stPos.is_scroll_lock ∧
        tok.editable = stPos.is_edit_mode ∧
        List.lookup "a" tok.columns = some (save_reduce_config cfgPos)) ∧
      (save { stMix with heap := (save stMix).2 }).1 = (save stMix).1 :=
  ⟨save_amended.1 stNoTable rfl,
    save_amended.2.1 stPos "a" 0 cfgPos rfl (by decide) rfl rfl rfl,
    save_amended.2.2.2.1 stMix rfl (by decide)⟩

/-! ## Claims C8 and C9: legend drag clamping -/

/-- Claim C8: when only the right edge overflows — the legend's right edge
plus the 10-pixel margin plus the drag offset exceeds the container's right
edge while the other three margined edges stay inside — the adjusted
x-offset equals the input offset minus the excess, so that after applying it
the legend's right edge plus margin lies exactly on the container's right
edge; the y-offset passes through unchanged. -/
theorem drag_clamp_right (chartRect legendRect : Rect) (offsetX offsetY : ℚ)
    (hr : legendRect.right + offsetX + 10 > chartRect.right)
    (hl : ¬(legendRect.left + offsetX - 10 < chartRect.left))
    (ht : ¬(legendRect.top + offsetY - 10 < chartRect.top))
    (hb : ¬(legendRect.bottom + offsetY + 10 > chartRect.bottom)) :
    ((enforceContainerBoundaries chartRect legendRect offsetX offsetY).1 =
        offsetX - (legendRect.right + offsetX + 10 - chartRect.right) ∧
      legendRect.right + 10 +
          (enforceContainerBoundaries chartRect legendRect offsetX offsetY).1 =
        chartRect.right ∧
      (enforceContainerBoundaries chartRect legendRect offsetX offsetY).2 =
        offsetY) := by
  have hred : enforceContainerBoundaries chartRect legendRect offsetX offsetY =
      (offsetX - (legendRect.right + offsetX + 10 - chartRect.right), offsetY) := by
    simp [enforceContainerBoundaries, boundaries, isElementOverflowing,
      Rect.edgeVal, hr, hl, ht, hb]
  rw [hred]
  refine ⟨rfl, by ring, rfl⟩

theorem drag_clamp_right_witness :
    ((enforceContainerBoundaries chartRect0 legendRect0 20 0).1 =
        20 - (legendRect0.right + 20 + 10 - chartRect0.right) ∧
      legendRect0.right + 10 +
          (enforceContainerBoundaries chartRect0 legendRect0 20 0).1 =
        chartRect0.right ∧
      (enforceContainerBoundaries chartRect0 legendRect0 20 0).2 = 0) :=
  drag_clamp_right chartRect0 legendRect0 20 0
    (by norm_num [chartRect0, legendRect0])
    (by norm_num [chartRect0, legendRect0])
    (by norm_num [chartRect0, legendRect0])
    (by norm_num [chartRect0, legendRect0])

/-- Claim C9: when the margin-extended dragged bounding box stays inside the
container on all four edges, `enforceContainerBoundaries` returns the input
offsets unchanged. -/
theorem drag_clamp_identity (chartRect legendRect : Rect) (offsetX offsetY : ℚ)
    (hr : ¬(legendRect.right + offsetX + 10 > chartRect.right))
    (hl : ¬(legendRect.left + offsetX - 10 < chartRect.left))
    (ht : ¬(legendRect.top + offsetY - 10 < chartRect.top))
    (hb : ¬(legendRect.bottom + offsetY + 10 > chartRect.bottom)) :
    enforceContainerBoundaries chartRect legendRect offsetX offsetY =
      (offsetX, offsetY) := by
  simp [enforceContainerBoundaries, boundaries, isElementOverflowing,
    Rect.edgeVal, hr, hl, ht, hb]

theorem drag_clamp_identity_witness :
    enforceContainerBoundaries chartRect0 legendRect0 5 5 = (5, 5) :=
  drag_clamp_identity chartRect0 legendRect0 5 5
    (by norm_num [chartRect0, legendRect0])
    (by norm_num [chartRect0, legendRect0])
    (by norm_num [chartRect0, legendRect0])
    (by norm_num [chartRect0, legendRect0])

end Perspective
